import Mathlib

/-!
Verification of the DePINfinity repository against its specification.

The repository simulates a two-ledger incentive network:
* `mock-solana/src/index.ts` — the public-layer telemetry reward engine
  (device registry, data submission, reward calculation);
* `bridge/corda-bridge.ts` — the aggregation / anonymization bridge;
* `corda-app/.../contracts/RoamingAgreementContract.kt` — the roaming
  agreement lifecycle contract on the permissioned layer;
* `corda-app/.../services/NetworkDataService.kt` — B2B insights;
* `corda-app/.../integration/SolanaCordaBridge.kt` — batch migration flow;
* the mock Corda network (`MockCordaNetwork`) — agreement execution,
  revenue computation and recommendation generation.

JavaScript / Kotlin `number` / `Double` arithmetic is modelled over `ℚ`
(exact rational arithmetic) where the code only adds, multiplies, divides
and compares, and over `ℝ` where the code uses `Math.PI` and trigonometry
(the haversine radius and the coverage-density area).  Timestamps
(`Date.now()`, `Instant.now()`) are modelled by an explicit integer clock
parameter `now` threaded through each operation.  In-memory
`Map<string, T>` stores are modelled as association lists with
set-replace semantics.
-/

namespace DePINfinity

/-! ### Association-list store, modelling `Map<string, T>` -/

/-- First value bound to key `k`, modelling `Map.get`. -/
def mapFind {α : Type} (m : List (String × α)) (k : String) : Option α :=
  match m with
  | [] => none
  | (k0, v) :: rest => if k0 = k then some v else mapFind rest k

/-- Bind key `k` to `v`, replacing an existing binding (`Map.set`). -/
def mapSet {α : Type} (m : List (String × α)) (k : String) (v : α) :
    List (String × α) :=
  match m with
  | [] => [(k, v)]
  | (k0, v0) :: rest =>
      if k0 = k then (k0, v) :: rest else (k0, v0) :: mapSet rest k v

namespace MockSolana

/-! ### `mock-solana/src/index.ts` -/

/-- Geographic location `{latitude, longitude, accuracy}`. -/
structure Location where
  latitude : ℚ
  longitude : ℚ
  accuracy : ℚ
  deriving DecidableEq

/-- `deviceType ∈ {Smartphone, Router, IoTDevice, Hotspot}`. -/
inductive DeviceType where
  | Smartphone
  | Router
  | IoTDevice
  | Hotspot
  deriving DecidableEq

/-- The `Device` interface of `mock-solana/src/index.ts`. -/
structure Device where
  id : String
  owner : String
  deviceType : DeviceType
  location : Location
  isActive : Bool
  totalUptime : ℕ
  totalRewardsEarned : ℤ
  lastActivity : ℤ
  deriving DecidableEq

/-- The `NetworkData` interface (one telemetry record). -/
structure NetworkData where
  signalStrength : ℚ
  latency : ℚ
  throughput : ℚ
  availability : ℚ
  location : Location
  deriving DecidableEq

/-- The `ProgramState` interface. -/
structure ProgramState where
  totalDevices : ℕ
  totalRewardsDistributed : ℤ
  isActive : Bool
  deriving DecidableEq

/-- The mutable fields of the `MockSolanaProgram` class. -/
structure State where
  devices : List (String × Device)
  programState : ProgramState
  rewardVault : ℤ
  deriving DecidableEq

/-- Errors thrown by `submitData`: `Error("Device not found")` and
`Error("Device is not active")`. -/
inductive SubmitError where
  | notFound
  | inactiveDevice
  deriving DecidableEq

/-- `calculateReward(qualityData, uptime)`: tiered multipliers applied to a
base reward of 1000 tokens, floored.  `1.5 = 3/2`, `0.8 = 4/5`,
`0.3 = 3/10`, `1.2 = 6/5`, `0.6 = 3/5`, `1.3 = 13/10`, `0.7 = 7/10`,
`0.5 = 1/2`. -/
def calculateReward (qualityData : NetworkData) (uptime : ℕ) : ℤ :=
  let baseReward : ℚ := 1000
  let signalMultiplier : ℚ :=
    if qualityData.signalStrength > -70 then 3/2
    else if qualityData.signalStrength > -80 then 4/5
    else 3/10
  let latencyMultiplier : ℚ :=
    if qualityData.latency < 50 then 6/5
    else if qualityData.latency < 100 then 1
    else 3/5
  let throughputMultiplier : ℚ :=
    if qualityData.throughput > 1000000 then 13/10
    else if qualityData.throughput > 500000 then 1
    else 7/10
  let availabilityMultiplier : ℚ := qualityData.availability
  let uptimeBonus : ℚ := 1 + ((uptime : ℚ) / 1000) * (1/2)
  let totalMultiplier : ℚ :=
    signalMultiplier * latencyMultiplier * throughputMultiplier *
      availabilityMultiplier * uptimeBonus
  ⌊baseReward * totalMultiplier⌋

/-- `registerDevice(deviceId, deviceType, location, owner)`: stores a fresh
device record under `deviceId` (replacing any existing binding, as
`Map.set` does) and increments `programState.totalDevices`
unconditionally. -/
def registerDevice (st : State) (deviceId : String) (deviceType : DeviceType)
    (location : Location) (owner : String) (now : ℤ) : State :=
  let device : Device :=
    { id := deviceId
      owner := owner
      deviceType := deviceType
      location := location
      isActive := true
      totalUptime := 0
      totalRewardsEarned := 0
      lastActivity := now }
  { st with
      devices := mapSet st.devices deviceId device
      programState :=
        { st.programState with
            totalDevices := st.programState.totalDevices + 1 } }

/-- `submitData(deviceId, qualityData)`: throws for an unknown or inactive
device (leaving all state untouched); otherwise computes the reward from
the device's `totalUptime` before the call, then updates the device's
stats, the global reward counter and the vault.  The reward amount
(reported to the caller through the `dataSubmitted` event) is returned
alongside the new state. -/
def submitData (st : State) (deviceId : String) (qualityData : NetworkData)
    (now : ℤ) : Except SubmitError ℤ × State :=
  match mapFind st.devices deviceId with
  | none => (Except.error SubmitError.notFound, st)
  | some device =>
      if device.isActive = false then
        (Except.error SubmitError.inactiveDevice, st)
      else
        let rewardAmount := calculateReward qualityData device.totalUptime
        let device1 : Device :=
          { device with
              totalUptime := device.totalUptime + 1
              totalRewardsEarned := device.totalRewardsEarned + rewardAmount
              lastActivity := now
              location := qualityData.location }
        (Except.ok rewardAmount,
          { st with
              devices := mapSet st.devices deviceId device1
              programState :=
                { st.programState with
                    totalRewardsDistributed :=
                      st.programState.totalRewardsDistributed + rewardAmount }
              rewardVault := st.rewardVault - rewardAmount })

/-- The telemetry record of claim C1: signalStrength −65 dBm, latency 45 ms,
throughput 1,200,000 bps, availability 0.95. -/
def c1Telemetry : NetworkData :=
  { signalStrength := -65
    latency := 45
    throughput := 1200000
    availability := 19/20
    location := { latitude := 0, longitude := 0, accuracy := 10 } }

/-- A concrete registered, active device with no uptime yet. -/
def demoDevice : Device :=
  { id := "device-1"
    owner := "owner-1"
    deviceType := DeviceType.Smartphone
    location := { latitude := 0, longitude := 0, accuracy := 10 }
    isActive := true
    totalUptime := 0
    totalRewardsEarned := 0
    lastActivity := 0 }

/-- A concrete registered but deactivated device. -/
def inactiveDevice : Device :=
  { demoDevice with id := "device-2", isActive := false }

/-- A program state holding only `demoDevice`. -/
def demoState : State :=
  { devices := [("device-1", demoDevice)]
    programState :=
      { totalDevices := 1, totalRewardsDistributed := 0, isActive := true }
    rewardVault := 1000000000 }

/-- A program state holding only `inactiveDevice`. -/
def demoStateInactive : State :=
  { devices := [("device-2", inactiveDevice)]
    programState :=
      { totalDevices := 1, totalRewardsDistributed := 0, isActive := true }
    rewardVault := 1000000000 }

/-- The empty program state (`reset()`). -/
def emptyState : State :=
  { devices := []
    programState :=
      { totalDevices := 0, totalRewardsDistributed := 0, isActive := true }
    rewardVault := 1000000000 }

end MockSolana

namespace Bridge

/-! ### `bridge/corda-bridge.ts` — aggregation and anonymization

`Math.round(x)` in JavaScript is `⌊x + 1/2⌋`, which is Mathlib's `round`.
`Math.atan2(y, x)` is the argument of the complex number `x + y·i`. -/

/-- Geographic location of a data submission. -/
structure SubLocation where
  latitude : ℝ
  longitude : ℝ
  accuracy : ℝ

/-- The `DataSubmission` interface. -/
structure DataSubmission where
  device : String
  timestamp : ℤ
  signalStrength : ℝ
  latency : ℝ
  throughput : ℝ
  availability : ℝ
  location : SubLocation

/-- The `region` part of `AggregatedNetworkData`. -/
structure Region where
  latitude : ℝ
  longitude : ℝ
  radius : ℝ

/-- The `AggregatedNetworkData` interface. -/
structure AggregatedNetworkData where
  region : Region
  averageSignalStrength : ℝ
  averageLatency : ℝ
  averageThroughput : ℝ
  averageAvailability : ℝ
  deviceCount : ℕ
  dataPoints : ℕ
  timestamp : ℤ

/-- `toRadians(degrees)`. -/
noncomputable def toRadians (degrees : ℝ) : ℝ :=
  degrees * (Real.pi / 180)

/-- `Math.atan2(y, x)`, via the complex argument. -/
noncomputable def atan2 (y x : ℝ) : ℝ :=
  Complex.arg ⟨x, y⟩

/-- `calculateDistance(lat1, lng1, lat2, lng2)`: haversine great-circle
distance in meters, Earth radius 6371000 m. -/
noncomputable def calculateDistance (lat1 lng1 lat2 lng2 : ℝ) : ℝ :=
  let R : ℝ := 6371000
  let dLat := toRadians (lat2 - lat1)
  let dLng := toRadians (lng2 - lng1)
  let a :=
    Real.sin (dLat / 2) * Real.sin (dLat / 2) +
      Real.cos (toRadians lat1) * Real.cos (toRadians lat2) *
        Real.sin (dLng / 2) * Real.sin (dLng / 2)
  let c := 2 * atan2 (Real.sqrt a) (Real.sqrt (1 - a))
  R * c

/-- `calculateRadius(submissions)`: 0 for at most one point, otherwise the
rounded maximum distance from the centroid to any submission. -/
noncomputable def calculateRadius (submissions : List DataSubmission) : ℝ :=
  if submissions.length ≤ 1 then 0
  else
    let centerLat :=
      (submissions.map (fun sub => sub.location.latitude)).sum /
        (submissions.length : ℝ)
    let centerLng :=
      (submissions.map (fun sub => sub.location.longitude)).sum /
        (submissions.length : ℝ)
    let maxDistance :=
      (submissions.map (fun sub =>
          calculateDistance centerLat centerLng
            sub.location.latitude sub.location.longitude)).foldl max 0
    (round maxDistance : ℤ)

/-- `processDataSubmissions(submissions)`: all-zero output on the empty
batch, otherwise simple means of each metric, centroid and max-distance
radius, distinct-device count and record count.  `Date.now()` is the
explicit `now` parameter. -/
noncomputable def processDataSubmissions (submissions : List DataSubmission)
    (now : ℤ) : AggregatedNetworkData :=
  if submissions.length = 0 then
    { region := { latitude := 0, longitude := 0, radius := 0 }
      averageSignalStrength := 0
      averageLatency := 0
      averageThroughput := 0
      averageAvailability := 0
      deviceCount := 0
      dataPoints := 0
      timestamp := now }
  else
    let n : ℝ := submissions.length
    let totalSignalStrength :=
      (submissions.map (fun sub => sub.signalStrength)).sum
    let totalLatency := (submissions.map (fun sub => sub.latency)).sum
    let totalThroughput := (submissions.map (fun sub => sub.throughput)).sum
    let totalAvailability :=
      (submissions.map (fun sub => sub.availability)).sum
    let avgLatitude :=
      (submissions.map (fun sub => sub.location.latitude)).sum / n
    let avgLongitude :=
      (submissions.map (fun sub => sub.location.longitude)).sum / n
    { region :=
        { latitude := avgLatitude
          longitude := avgLongitude
          radius := calculateRadius submissions }
      averageSignalStrength := totalSignalStrength / n
      averageLatency := totalLatency / n
      averageThroughput := totalThroughput / n
      averageAvailability := totalAvailability / n
      deviceCount := (submissions.map (fun sub => sub.device)).dedup.length
      dataPoints := submissions.length
      timestamp := now }

/-- `anonymizeData(data)`: round coordinates to 2 decimals, radius and the
signal/latency/throughput means to integers, availability to 2 decimals;
every other field (including `timestamp`) is spread through unchanged. -/
noncomputable def anonymizeData (data : AggregatedNetworkData) :
    AggregatedNetworkData :=
  { data with
      region :=
        { latitude := ((round (data.region.latitude * 100) : ℤ) : ℝ) / 100
          longitude := ((round (data.region.longitude * 100) : ℤ) : ℝ) / 100
          radius := ((round data.region.radius : ℤ) : ℝ) }
      averageSignalStrength := ((round data.averageSignalStrength : ℤ) : ℝ)
      averageLatency := ((round data.averageLatency : ℤ) : ℝ)
      averageThroughput := ((round data.averageThroughput : ℤ) : ℝ)
      averageAvailability :=
        ((round (data.averageAvailability * 100) : ℤ) : ℝ) / 100 }

/-- `aggregateNetworkData`: the bridge pipeline on an already-fetched batch —
aggregate, then anonymize. -/
noncomputable def aggregateNetworkData (submissions : List DataSubmission)
    (now : ℤ) : AggregatedNetworkData :=
  anonymizeData (processDataSubmissions submissions now)

/-- A concrete single-record batch used to separate two aggregation runs. -/
def sampleSubmission : DataSubmission :=
  { device := "device-1"
    timestamp := 0
    signalStrength := -65
    latency := 45
    throughput := 1200000
    availability := 1
    location := { latitude := 0, longitude := 0, accuracy := 10 } }

end Bridge

namespace CordaApp

/-! ### `contracts/RoamingAgreementContract.kt`

A Corda `verify` either passes or throws (`requireThat`); each command
handler is modelled as a predicate on the single input state, the single
output state and the verification clock.  The one-input / one-output shape
checks are carried by the signature. -/

/-- `AgreementStatus`. -/
inductive AgreementStatus where
  | PENDING
  | ACTIVE
  | SUSPENDED
  | TERMINATED
  | EXPIRED
  deriving DecidableEq

/-- `AgreementTerms`. -/
structure AgreementTerms where
  dataSharing : Bool
  infrastructureAccess : Bool
  revenueSharing : ℚ
  duration : ℤ
  minimumQuality : ℚ
  coverageArea : ℚ
  performanceMetrics : List String
  deriving DecidableEq

/-- `AgreementTerms.isValid()`. -/
def AgreementTerms.IsValid (t : AgreementTerms) : Prop :=
  0 ≤ t.revenueSharing ∧ t.revenueSharing ≤ 100 ∧
    t.duration > 0 ∧
    0 ≤ t.minimumQuality ∧ t.minimumQuality ≤ 1 ∧
    t.coverageArea > 0 ∧
    t.performanceMetrics ≠ []

instance (t : AgreementTerms) : Decidable t.IsValid := by
  unfold AgreementTerms.IsValid
  infer_instance

/-- `NetworkQualityData`. -/
structure NetworkQualityData where
  averageQuality : ℚ
  coverageArea : ℚ
  deviceCount : ℕ
  lastUpdated : ℤ
  deriving DecidableEq

/-- `RoamingAgreementState` (participants kept as identity names). -/
structure RoamingAgreementState where
  id : String
  partnerId : String
  region : String
  terms : AgreementTerms
  networkData : NetworkQualityData
  status : AgreementStatus
  creationTime : ℤ
  lastExecutionTime : ℤ
  terminationTime : Option ℤ
  participants : List String
  deriving DecidableEq

/-- `isExpired()`: `creationTime.plusSeconds(duration * 86400)` lies
strictly before `Instant.now()` (timestamps in seconds). -/
def RoamingAgreementState.isExpired (s : RoamingAgreementState)
    (now : ℤ) : Bool :=
  decide (s.creationTime + s.terms.duration * 86400 < now)

/-- `verifyUpdate`: same id, valid terms, output not expired.  The input's
status is not inspected. -/
def verifyUpdate (input output : RoamingAgreementState) (now : ℤ) : Prop :=
  input.id = output.id ∧ output.terms.IsValid ∧
    output.isExpired now = false

instance (input output : RoamingAgreementState) (now : ℤ) :
    Decidable (verifyUpdate input output now) := by
  unfold verifyUpdate
  infer_instance

/-- `verifyExecute`: input active and not expired, output's
`lastExecutionTime` strictly after the input's. -/
def verifyExecute (input output : RoamingAgreementState) (now : ℤ) : Prop :=
  input.status = AgreementStatus.ACTIVE ∧
    input.isExpired now = false ∧
    input.lastExecutionTime < output.lastExecutionTime

instance (input output : RoamingAgreementState) (now : ℤ) :
    Decidable (verifyExecute input output now) := by
  unfold verifyExecute
  infer_instance

/-- `verifyTerminate`: input active, output terminated with a termination
time set. -/
def verifyTerminate (input output : RoamingAgreementState) : Prop :=
  input.status = AgreementStatus.ACTIVE ∧
    output.status = AgreementStatus.TERMINATED ∧
    output.terminationTime ≠ none

instance (input output : RoamingAgreementState) :
    Decidable (verifyTerminate input output) := by
  unfold verifyTerminate
  infer_instance

/-- The `ActivateRoamingAgreementFlow` of `DePINfinityWebServer.kt` builds
its transaction with the `Update` command and this output state:
`status := ACTIVE`, `lastExecutionTime := now`. -/
def activateOutput (s : RoamingAgreementState) (now : ℤ) :
    RoamingAgreementState :=
  { s with status := AgreementStatus.ACTIVE, lastExecutionTime := now }

/-- A concrete terminated agreement with valid terms, used to probe
terminality of the TERMINATED status. -/
def terminatedAgreement : RoamingAgreementState :=
  { id := "agreement-1"
    partnerId := "partner-1"
    region := "Tokyo"
    terms :=
      { dataSharing := true
        infrastructureAccess := true
        revenueSharing := 15
        duration := 30
        minimumQuality := 4/5
        coverageArea := 1000
        performanceMetrics := ["uptime"] }
    networkData :=
      { averageQuality := 9/10
        coverageArea := 1000
        deviceCount := 5
        lastUpdated := 0 }
    status := AgreementStatus.TERMINATED
    creationTime := 0
    lastExecutionTime := 0
    terminationTime := some 10
    participants := ["DOCOMO", "Partner"] }

/-- A concrete ACTIVE agreement created at time 0 with a one-day duration. -/
def oneDayAgreement : RoamingAgreementState :=
  { terminatedAgreement with
      id := "agreement-2"
      terms := { terminatedAgreement.terms with duration := 1 }
      status := AgreementStatus.ACTIVE
      terminationTime := none }

end CordaApp

namespace NetworkDataService

/-! ### `services/NetworkDataService.kt` — B2B insights -/

/-- `NetworkRegion`. -/
structure NetworkRegion where
  latitude : ℝ
  longitude : ℝ
  radius : ℝ
  country : String
  city : String

/-- `NetworkMetrics`. -/
structure NetworkMetrics where
  averageSignalStrength : ℝ
  averageLatency : ℝ
  averageThroughput : ℝ
  averageAvailability : ℝ
  deviceCount : ℕ
  dataPoints : ℕ
  qualityScore : ℝ

/-- `NetworkDataState` (participants elided; not read by the service
computations modelled here). -/
structure NetworkDataState where
  id : String
  region : NetworkRegion
  metrics : NetworkMetrics
  timestamp : ℤ
  source : String
  version : String

/-- `calculateCoverageDensity(data)`: 0 on the empty list, otherwise the
total device count divided by the total area `Σ π·radius²`. -/
noncomputable def calculateCoverageDensity (data : List NetworkDataState) :
    ℝ :=
  if data.isEmpty then 0
  else
    let totalArea :=
      (data.map (fun d => Real.pi * d.region.radius * d.region.radius)).sum
    let totalDevices := (data.map (fun d => d.metrics.deviceCount)).sum
    (totalDevices : ℝ) / totalArea

/-- A regional aggregate record with the given device count and radius, all
other fields fixed; used to instantiate the coverage-density example. -/
noncomputable def aggregateOf (deviceCount : ℕ) (radius : ℝ) :
    NetworkDataState :=
  { id := "nd"
    region :=
      { latitude := 0, longitude := 0, radius := radius,
        country := "JP", city := "Tokyo" }
    metrics :=
      { averageSignalStrength := -65, averageLatency := 45,
        averageThroughput := 1200000, averageAvailability := 0.95,
        deviceCount := deviceCount, dataPoints := 1, qualityScore := 0.9 }
    timestamp := 0
    source := "solana_depin"
    version := "1.0" }

end NetworkDataService

namespace SolanaCordaBridge

/-! ### `integration/SolanaCordaBridge.kt` — batch migration

`MigrateNetworkDataFromSolana` loops over the Solana records, calling the
`CreateNetworkDataFromSolana` subflow for each inside a try/catch.  The
subflow (a vault operation producing a fresh record id, or an exception)
is abstracted as a parameter `subflow`, returning either the created Corda
record id or the exception message. -/

/-- One Solana-side record handed to the migration flow (the loop body
reads only its timestamp, used as `solanaDataId`). -/
structure SolanaNetworkData where
  timestamp : ℤ
  deriving DecidableEq

/-- `NetworkDataMigrationResult`. -/
structure NetworkDataMigrationResult where
  solanaDataId : String
  cordaDataId : Option String
  success : Bool
  message : String
  deriving DecidableEq

/-- `MigrationResult`. -/
structure MigrationResult where
  totalDataPoints : ℕ
  successCount : ℕ
  failureCount : ℕ
  migrationResults : List NetworkDataMigrationResult
  timestamp : ℤ
  deriving DecidableEq

/-- The migration loop: one `NetworkDataMigrationResult` per input record,
counting successes and failures.  A subflow exception is caught, recorded
and counted — it never escapes. -/
def migrateLoop (subflow : SolanaNetworkData → Except String String) :
    List SolanaNetworkData → List NetworkDataMigrationResult × ℕ × ℕ
  | [] => ([], 0, 0)
  | data :: rest =>
      let (results, successCount, failureCount) := migrateLoop subflow rest
      match subflow data with
      | Except.ok cordaId =>
          ({ solanaDataId := toString data.timestamp
             cordaDataId := some cordaId
             success := true
             message := "Network data migrated successfully" } :: results,
            successCount + 1, failureCount)
      | Except.error e =>
          ({ solanaDataId := toString data.timestamp
             cordaDataId := none
             success := false
             message := "Failed to migrate network data: " ++ e } :: results,
            successCount, failureCount + 1)

/-- `MigrateNetworkDataFromSolana.call()`. -/
def migrateNetworkDataFromSolana (solanaData : List SolanaNetworkData)
    (subflow : SolanaNetworkData → Except String String) (now : ℤ) :
    MigrationResult :=
  let r := migrateLoop subflow solanaData
  { totalDataPoints := solanaData.length
    successCount := r.2.1
    failureCount := r.2.2
    migrationResults := r.1
    timestamp := now }

/-- Whether the creation subflow succeeds on a given record. -/
def subflowOk (subflow : SolanaNetworkData → Except String String)
    (data : SolanaNetworkData) : Bool :=
  match subflow data with
  | Except.ok _ => true
  | Except.error _ => false

end SolanaCordaBridge

namespace MockCorda

/-! ### The `MockCordaNetwork` class (mock Corda B2B network) -/

/-- The `metrics` part of the mock network's `NetworkData`. -/
structure Metrics where
  averageSignalStrength : ℚ
  averageLatency : ℚ
  averageThroughput : ℚ
  averageAvailability : ℚ
  deviceCount : ℕ
  dataPoints : ℕ
  deriving DecidableEq

/-- The mock network's `NetworkData` interface. -/
structure NetworkData where
  region : String
  metrics : Metrics
  timestamp : ℤ
  deriving DecidableEq

/-- Agreement status of the mock network. -/
inductive Status where
  | PENDING
  | ACTIVE
  | SUSPENDED
  | TERMINATED
  deriving DecidableEq

/-- The `terms` part of the mock `RoamingAgreement`. -/
structure Terms where
  dataSharing : Bool
  infrastructureAccess : Bool
  revenueSharing : ℚ
  duration : ℚ
  deriving DecidableEq

/-- The `networkData` snapshot of the mock `RoamingAgreement`. -/
structure AgreementNetworkData where
  averageQuality : ℚ
  coverageArea : ℚ
  deviceCount : ℕ
  deriving DecidableEq

/-- The mock `RoamingAgreement` interface. -/
structure RoamingAgreement where
  id : String
  partnerId : String
  region : String
  terms : Terms
  networkData : AgreementNetworkData
  status : Status
  creationTime : ℤ
  lastExecutionTime : ℤ
  deriving DecidableEq

/-- Errors thrown by `executeRoamingAgreement`:
`Error("Roaming agreement not found")` and
`Error("Agreement is not active")`. -/
inductive ExecuteError where
  | notFound
  | notActive
  deriving DecidableEq

/-- `calculateRevenue(agreement)`: base revenue of 100 per device, scaled by
the quality and the coverage area in km². -/
def calculateRevenue (agreement : RoamingAgreement) : ℚ :=
  let baseRevenue : ℚ := (agreement.networkData.deviceCount : ℚ) * 100
  let qualityMultiplier := agreement.networkData.averageQuality
  let coverageMultiplier := agreement.networkData.coverageArea / 1000
  baseRevenue * qualityMultiplier * coverageMultiplier

/-- `executeRoamingAgreement(agreementId)`: unknown id or non-ACTIVE status
throws, leaving the store untouched; otherwise the revenue is computed,
`lastExecutionTime` is set to `now`, and the revenue is reported to the
caller through the `roamingAgreementExecuted` event (returned here
alongside the updated store), never written into the agreement. -/
def executeRoamingAgreement (agreements : List (String × RoamingAgreement))
    (agreementId : String) (now : ℤ) :
    Except ExecuteError (ℚ × List (String × RoamingAgreement)) :=
  match mapFind agreements agreementId with
  | none => Except.error ExecuteError.notFound
  | some agreement =>
      if agreement.status ≠ Status.ACTIVE then
        Except.error ExecuteError.notActive
      else
        let revenue := calculateRevenue agreement
        let agreement1 := { agreement with lastExecutionTime := now }
        Except.ok (revenue, mapSet agreements agreementId agreement1)

/-- The three recommendation categories of `generateRecommendations`. -/
structure Recommendations where
  infrastructureInvestment : List String
  partnershipOpportunities : List String
  costOptimization : List String
  deriving DecidableEq

/-- Average quality of a window of mock network data: the mean of
`metrics.averageAvailability`, 0 on the empty window. -/
def avgQuality (data : List NetworkData) : ℚ :=
  if data.length = 0 then 0
  else
    (data.map (fun d => d.metrics.averageAvailability)).sum /
      (data.length : ℚ)

/-- `generateRecommendations(data)`: three independent threshold rules on
the average quality; each appends its fixed suggestions to its own
category. -/
def generateRecommendations (data : List NetworkData) : Recommendations :=
  let q := avgQuality data
  { infrastructureInvestment :=
      if q < 3/5 then
        ["Invest in network infrastructure upgrades",
         "Deploy additional base stations"]
      else []
    partnershipOpportunities :=
      if q > 4/5 then
        ["Offer premium roaming services",
         "Expand into adjacent markets"]
      else []
    costOptimization :=
      if q > 9/10 then
        ["Optimize network resources",
         "Implement automated management"]
      else [] }

/-- A concrete ACTIVE mock agreement. -/
def activeAgreement : RoamingAgreement :=
  { id := "agreement-1"
    partnerId := "partner-1"
    region := "Tokyo"
    terms :=
      { dataSharing := true
        infrastructureAccess := true
        revenueSharing := 15
        duration := 30 }
    networkData :=
      { averageQuality := 9/10
        coverageArea := 1000
        deviceCount := 5 }
    status := Status.ACTIVE
    creationTime := 0
    lastExecutionTime := 0 }

/-- A concrete mock network-data record with availability 0.95. -/
def highQualityData : NetworkData :=
  { region := "Tokyo"
    metrics :=
      { averageSignalStrength := -65
        averageLatency := 45
        averageThroughput := 1200000
        averageAvailability := 19/20
        deviceCount := 5
        dataPoints := 10 }
    timestamp := 0 }

end MockCorda

/-! ## Helper lemmas -/

/-- Looking up a key right after binding it yields the new value. -/
theorem mapFind_mapSet_self {α : Type} (m : List (String × α)) (k : String)
    (v : α) : mapFind (mapSet m k v) k = some v := by
  induction m with
  | nil => simp [mapSet, mapFind]
  | cons hd tl ih =>
      obtain ⟨k0, v0⟩ := hd
      by_cases h : k0 = k
      · simp [mapSet, mapFind, h]
      · simp [mapSet, mapFind, h, ih]

/-! ## Claims -/

/-- Claim C1: submitting telemetry with signalStrength −65, latency 45,
throughput 1,200,000 and availability 0.95 for a registered active device
computes the reward from the device's `totalUptime` as it was before the
call, and with `totalUptime = 0` that reward is
`⌊1000 · 1.5 · 1.2 · 1.3 · 0.95 · 1.0⌋ = 2223`. -/
theorem C1_submit_reward_2223 (st : MockSolana.State) (deviceId : String)
    (d : MockSolana.Device) (now : ℤ)
    (hfind : mapFind st.devices deviceId = some d)
    (hactive : d.isActive = true) :
    (MockSolana.submitData st deviceId MockSolana.c1Telemetry now).1 =
      Except.ok
        (MockSolana.calculateReward MockSolana.c1Telemetry d.totalUptime) ∧
    MockSolana.calculateReward MockSolana.c1Telemetry 0 = 2223 ∧
    (2223 : ℤ) = ⌊(1000 : ℚ) * (3/2) * (6/5) * (13/10) * (19/20) * 1⌋ := by
  refine ⟨?_, ?_, ?_⟩
  · simp [MockSolana.submitData, hfind, hactive]
  · norm_num [MockSolana.calculateReward, MockSolana.c1Telemetry]
  · norm_num

/-- Witness for C1: the concrete one-device state at uptime 0. -/
theorem C1_witness :
    (MockSolana.submitData MockSolana.demoState "device-1"
        MockSolana.c1Telemetry 5).1 =
      Except.ok (MockSolana.calculateReward MockSolana.c1Telemetry
        MockSolana.demoDevice.totalUptime) ∧
    MockSolana.calculateReward MockSolana.c1Telemetry 0 = 2223 ∧
    (2223 : ℤ) = ⌊(1000 : ℚ) * (3/2) * (6/5) * (13/10) * (19/20) * 1⌋ :=
  C1_submit_reward_2223 MockSolana.demoState "device-1"
    MockSolana.demoDevice 5 (by decide) rfl

/-- Claim C4: `submitData` fails with NotFound for an unknown device and
with InactiveDevice for a deactivated one, and in both failure cases the
whole program state — device fields, `totalRewardsDistributed` and
`rewardVault` — is returned unchanged. -/
theorem C4_submit_failures_no_mutation (st : MockSolana.State)
    (deviceId : String) (q : MockSolana.NetworkData) (now : ℤ) :
    (mapFind st.devices deviceId = none →
      MockSolana.submitData st deviceId q now =
        (Except.error MockSolana.SubmitError.notFound, st)) ∧
    (∀ d : MockSolana.Device, mapFind st.devices deviceId = some d →
      d.isActive = false →
      MockSolana.submitData st deviceId q now =
        (Except.error MockSolana.SubmitError.inactiveDevice, st)) := by
  constructor
  · intro h
    simp [MockSolana.submitData, h]
  · intro d hd hact
    simp [MockSolana.submitData, hd, hact]

/-- Witness for C4: an unknown id and a deactivated device. -/
theorem C4_witness :
    MockSolana.submitData MockSolana.demoState "device-404"
        MockSolana.c1Telemetry 5 =
      (Except.error MockSolana.SubmitError.notFound, MockSolana.demoState) ∧
    MockSolana.submitData MockSolana.demoStateInactive "device-2"
        MockSolana.c1Telemetry 5 =
      (Except.error MockSolana.SubmitError.inactiveDevice,
        MockSolana.demoStateInactive) :=
  ⟨(C4_submit_failures_no_mutation MockSolana.demoState "device-404"
      MockSolana.c1Telemetry 5).1 (by decide),
   (C4_submit_failures_no_mutation MockSolana.demoStateInactive "device-2"
      MockSolana.c1Telemetry 5).2 MockSolana.inactiveDevice (by decide) rfl⟩

/-- Claim C10: `registerDevice` unconditionally stores a fresh device
(`totalUptime = 0`, `totalRewardsEarned = 0`, `isActive = true`) under the
id — silently replacing any existing device and its accumulated rewards —
and unconditionally increments `totalDevices`; registering the same id
twice leaves `totalDevices = 2` with a single stored device. -/
theorem C10_register_overwrites (st : MockSolana.State) (deviceId : String)
    (deviceType : MockSolana.DeviceType) (location : MockSolana.Location)
    (owner : String) (now : ℤ) :
    mapFind (MockSolana.registerDevice st deviceId deviceType location
        owner now).devices deviceId =
      some { id := deviceId, owner := owner, deviceType := deviceType,
             location := location, isActive := true, totalUptime := 0,
             totalRewardsEarned := 0, lastActivity := now } ∧
    (MockSolana.registerDevice st deviceId deviceType location owner
        now).programState.totalDevices = st.programState.totalDevices + 1 ∧
    (MockSolana.registerDevice (MockSolana.registerDevice
        MockSolana.emptyState "device-1" MockSolana.DeviceType.Smartphone
        { latitude := 0, longitude := 0, accuracy := 10 } "owner-1" 0)
        "device-1" MockSolana.DeviceType.Smartphone
        { latitude := 0, longitude := 0, accuracy := 10 } "owner-1"
        1).programState.totalDevices = 2 ∧
    (MockSolana.registerDevice (MockSolana.registerDevice
        MockSolana.emptyState "device-1" MockSolana.DeviceType.Smartphone
        { latitude := 0, longitude := 0, accuracy := 10 } "owner-1" 0)
        "device-1" MockSolana.DeviceType.Smartphone
        { latitude := 0, longitude := 0, accuracy := 10 } "owner-1"
        1).devices.length = 1 := by
  exact ⟨mapFind_mapSet_self st.devices deviceId _, rfl, by decide, by decide⟩

/-- Counterexample to claim C2 as stated: running the bridge aggregation
twice over the same record set, at clock readings 0 and 1, yields outputs
that are not field-for-field identical — the `timestamp` field records the
wall clock (`Date.now()`) of each run. -/
theorem C2_counterexample :
    ¬ (Bridge.aggregateNetworkData [Bridge.sampleSubmission] 0 =
        Bridge.aggregateNetworkData [Bridge.sampleSubmission] 1) := by
  intro h
  have ht := congrArg Bridge.AggregatedNetworkData.timestamp h
  have h0 : (Bridge.aggregateNetworkData [Bridge.sampleSubmission]
      0).timestamp = 0 := rfl
  have h1 : (Bridge.aggregateNetworkData [Bridge.sampleSubmission]
      1).timestamp = 1 := rfl
  rw [h0, h1] at ht
  exact absurd ht (by decide)

/-- Claim C2 amended: the aggregation-plus-anonymization pipeline is
deterministic in the record set — two runs over the same records agree on
every field (region, the four rounded means, deviceCount, dataPoints)
except `timestamp`, which records each run's own clock; in particular two
runs at the same instant are bit-identical. -/
theorem C2_aggregation_deterministic
    (submissions : List Bridge.DataSubmission) (t1 t2 : ℤ) :
    Bridge.aggregateNetworkData submissions t1 =
      { Bridge.aggregateNetworkData submissions t2 with timestamp := t1 } := by
  by_cases h : submissions.length = 0 <;>
    simp [Bridge.aggregateNetworkData, Bridge.anonymizeData,
      Bridge.processDataSubmissions, h]

/-- The migration loop emits exactly one per-item result per record. -/
theorem migrateLoop_length
    (subflow : SolanaCordaBridge.SolanaNetworkData → Except String String)
    (l : List SolanaCordaBridge.SolanaNetworkData) :
    (SolanaCordaBridge.migrateLoop subflow l).1.length = l.length := by
  induction l with
  | nil => rfl
  | cons data rest ih =>
      cases h : subflow data <;>
        simp [SolanaCordaBridge.migrateLoop, h, ih]

/-- Success and failure counts of the migration loop partition the batch. -/
theorem migrateLoop_counts
    (subflow : SolanaCordaBridge.SolanaNetworkData → Except String String)
    (l : List SolanaCordaBridge.SolanaNetworkData) :
    (SolanaCordaBridge.migrateLoop subflow l).2.1 +
      (SolanaCordaBridge.migrateLoop subflow l).2.2 = l.length := by
  induction l with
  | nil => rfl
  | cons data rest ih =>
      rcases hml : SolanaCordaBridge.migrateLoop subflow rest with ⟨rs, s, f⟩
      rw [hml] at ih
      cases h : subflow data <;>
        simp only [SolanaCordaBridge.migrateLoop, h, hml,
          List.length_cons] <;>
        simp only at ih ⊢ <;> omega

/-- The success count of the migration loop counts the records on which
the subflow succeeds. -/
theorem migrateLoop_successCount
    (subflow : SolanaCordaBridge.SolanaNetworkData → Except String String)
    (l : List SolanaCordaBridge.SolanaNetworkData) :
    (SolanaCordaBridge.migrateLoop subflow l).2.1 =
      l.countP (SolanaCordaBridge.subflowOk subflow) := by
  induction l with
  | nil => rfl
  | cons data rest ih =>
      cases h : subflow data <;>
        simp [SolanaCordaBridge.migrateLoop, List.countP_cons,
          SolanaCordaBridge.subflowOk, h, ih]

/-- Per-item success flags line up with the subflow outcomes, in order. -/
theorem migrateLoop_success_flags
    (subflow : SolanaCordaBridge.SolanaNetworkData → Except String String)
    (l : List SolanaCordaBridge.SolanaNetworkData) :
    (SolanaCordaBridge.migrateLoop subflow l).1.map
        (fun r => r.success) =
      l.map (SolanaCordaBridge.subflowOk subflow) := by
  induction l with
  | nil => rfl
  | cons data rest ih =>
      cases h : subflow data <;>
        simp [SolanaCordaBridge.migrateLoop, SolanaCordaBridge.subflowOk,
          h, ih]

/-- Claim C3: the batch migration flow `MigrateNetworkDataFromSolana` is
total and reports per item: whatever the per-record creation subflow does,
the result counts every record (`totalDataPoints = N`,
`successCount + failureCount = N`), carries one per-item result per source
record in order with the success flag of that record's own outcome, and
`successCount` counts exactly the succeeding records — the flow never
fails with an all-or-nothing error for the whole batch. -/
theorem C3_migration_per_item
    (solanaData : List SolanaCordaBridge.SolanaNetworkData)
    (subflow : SolanaCordaBridge.SolanaNetworkData → Except String String)
    (now : ℤ) :
    (SolanaCordaBridge.migrateNetworkDataFromSolana solanaData subflow
        now).totalDataPoints = solanaData.length ∧
    (SolanaCordaBridge.migrateNetworkDataFromSolana solanaData subflow
        now).successCount +
      (SolanaCordaBridge.migrateNetworkDataFromSolana solanaData subflow
        now).failureCount = solanaData.length ∧
    (SolanaCordaBridge.migrateNetworkDataFromSolana solanaData subflow
        now).migrationResults.length = solanaData.length ∧
    (SolanaCordaBridge.migrateNetworkDataFromSolana solanaData subflow
        now).migrationResults.map (fun r => r.success) =
      solanaData.map (SolanaCordaBridge.subflowOk subflow) ∧
    (SolanaCordaBridge.migrateNetworkDataFromSolana solanaData subflow
        now).successCount =
      solanaData.countP (SolanaCordaBridge.subflowOk subflow) :=
  ⟨rfl, migrateLoop_counts subflow solanaData,
    migrateLoop_length subflow solanaData,
    migrateLoop_success_flags subflow solanaData,
    migrateLoop_successCount subflow solanaData⟩

/-- Claim C5: the contract's Execute command rejects any input that is not
ACTIVE or that is expired, and every accepted execution strictly advances
`lastExecutionTime`; on the mock network, executing an ACTIVE agreement
reports the computed revenue to the caller while persisting only the new
`lastExecutionTime` on the agreement, and a non-ACTIVE agreement is
rejected. -/
theorem C5_execute_lifecycle :
    (∀ (input output : CordaApp.RoamingAgreementState) (now : ℤ),
      input.status ≠ CordaApp.AgreementStatus.ACTIVE →
        ¬ CordaApp.verifyExecute input output now) ∧
    (∀ (input output : CordaApp.RoamingAgreementState) (now : ℤ),
      input.isExpired now = true →
        ¬ CordaApp.verifyExecute input output now) ∧
    (∀ (input output : CordaApp.RoamingAgreementState) (now : ℤ),
      CordaApp.verifyExecute input output now →
        input.lastExecutionTime < output.lastExecutionTime) ∧
    (∀ (agreements : List (String × MockCorda.RoamingAgreement))
        (agreementId : String) (agreement : MockCorda.RoamingAgreement)
        (now : ℤ),
      mapFind agreements agreementId = some agreement →
      agreement.status = MockCorda.Status.ACTIVE →
      MockCorda.executeRoamingAgreement agreements agreementId now =
        Except.ok (MockCorda.calculateRevenue agreement,
          mapSet agreements agreementId
            { agreement with lastExecutionTime := now })) ∧
    (∀ (agreements : List (String × MockCorda.RoamingAgreement))
        (agreementId : String) (agreement : MockCorda.RoamingAgreement)
        (now : ℤ),
      mapFind agreements agreementId = some agreement →
      agreement.status ≠ MockCorda.Status.ACTIVE →
      MockCorda.executeRoamingAgreement agreements agreementId now =
        Except.error MockCorda.ExecuteError.notActive) := by
  refine ⟨?_, ?_, ?_, ?_, ?_⟩
  · intro input output now hst hv
    exact hst hv.1
  · intro input output now hexp hv
    rw [hv.2.1] at hexp
    cases hexp
  · intro input output now hv
    exact hv.2.2
  · intro ags agreementId ag now hfind hact
    simp [MockCorda.executeRoamingAgreement, hfind, hact]
  · intro ags agreementId ag now hfind hact
    simp [MockCorda.executeRoamingAgreement, hfind, hact]

/-- Witness for C5: a TERMINATED agreement is rejected by Execute, and the
concrete ACTIVE mock agreement executes, reporting its revenue and storing
only the new execution time. -/
theorem C5_witness :
    ¬ CordaApp.verifyExecute CordaApp.terminatedAgreement
        CordaApp.terminatedAgreement 0 ∧
    MockCorda.executeRoamingAgreement
        [("agreement-1", MockCorda.activeAgreement)] "agreement-1" 5 =
      Except.ok (MockCorda.calculateRevenue MockCorda.activeAgreement,
        mapSet [("agreement-1", MockCorda.activeAgreement)] "agreement-1"
          { MockCorda.activeAgreement with lastExecutionTime := 5 }) :=
  ⟨C5_execute_lifecycle.1 CordaApp.terminatedAgreement
      CordaApp.terminatedAgreement 0 (by decide),
   C5_execute_lifecycle.2.2.2.1 [("agreement-1", MockCorda.activeAgreement)]
      "agreement-1" MockCorda.activeAgreement 5 rfl rfl⟩

/-- Claim C6: expiry is computed live from `creationTime` and the duration
in days — at any clock strictly after `creationTime + duration` days,
`isExpired()` reports true whatever the stored status, in particular for a
still-ACTIVE agreement. -/
theorem C6_expiry_live (s : CordaApp.RoamingAgreementState) (now : ℤ)
    (h : s.creationTime + s.terms.duration * 86400 < now) :
    s.isExpired now = true ∧
    ∀ σ : CordaApp.AgreementStatus,
      ({ s with status := σ } :
        CordaApp.RoamingAgreementState).isExpired now = true := by
  exact ⟨decide_eq_true h, fun σ => decide_eq_true h⟩

/-- Witness for C6: the ACTIVE one-day agreement created at time 0, read
two days (172800 s) later. -/
theorem C6_witness :
    CordaApp.oneDayAgreement.status = CordaApp.AgreementStatus.ACTIVE ∧
    CordaApp.oneDayAgreement.isExpired 172800 = true :=
  ⟨rfl, (C6_expiry_live CordaApp.oneDayAgreement 172800 (by decide)).1⟩

/-- Counterexample to claim C7 as stated: TERMINATED is not terminal — the
Update command, which the activate flow issues, never inspects the input's
status, so re-activating a TERMINATED agreement with valid terms passes
contract verification. -/
theorem C7_counterexample :
    CordaApp.terminatedAgreement.status =
      CordaApp.AgreementStatus.TERMINATED ∧
    (CordaApp.activateOutput CordaApp.terminatedAgreement 10).status =
      CordaApp.AgreementStatus.ACTIVE ∧
    CordaApp.verifyUpdate CordaApp.terminatedAgreement
      (CordaApp.activateOutput CordaApp.terminatedAgreement 10) 10 := by
  refine ⟨rfl, rfl, rfl, ?_, rfl⟩
  norm_num [CordaApp.AgreementTerms.IsValid, CordaApp.terminatedAgreement,
    CordaApp.activateOutput]

/-- Claim C7 amended: Terminate requires an ACTIVE input and sets
TERMINATED with a termination time; both Execute and a second Terminate
reject a TERMINATED input — but the Update command does not check the
input status, so TERMINATED is terminal only with respect to the Execute
and Terminate commands. -/
theorem C7_terminate_amended :
    (∀ input output : CordaApp.RoamingAgreementState,
      CordaApp.verifyTerminate input output →
        input.status = CordaApp.AgreementStatus.ACTIVE ∧
        output.status = CordaApp.AgreementStatus.TERMINATED ∧
        output.terminationTime ≠ none) ∧
    (∀ input output : CordaApp.RoamingAgreementState,
      input.status = CordaApp.AgreementStatus.TERMINATED →
        ¬ CordaApp.verifyTerminate input output) ∧
    (∀ (input output : CordaApp.RoamingAgreementState) (now : ℤ),
      input.status = CordaApp.AgreementStatus.TERMINATED →
        ¬ CordaApp.verifyExecute input output now) := by
  refine ⟨fun input output hv => hv, ?_, ?_⟩
  · intro input output hst hv
    exact absurd (hst.symm.trans hv.1) (by decide)
  · intro input output now hst hv
    exact absurd (hst.symm.trans hv.1) (by decide)

/-- Witness for C7: terminating the concrete TERMINATED agreement again is
rejected. -/
theorem C7_witness :
    CordaApp.terminatedAgreement.status =
      CordaApp.AgreementStatus.TERMINATED ∧
    ¬ CordaApp.verifyTerminate CordaApp.terminatedAgreement
        CordaApp.terminatedAgreement :=
  ⟨rfl, C7_terminate_amended.2.1 CordaApp.terminatedAgreement
      CordaApp.terminatedAgreement rfl⟩

/-- Claim C8: coverage density is the total device count divided by the
total area `Σ π·radius²`, and 0 on the empty window; for device counts
{3, 2} and radii {10, 20} it equals `5 / (π·100 + π·400)`. -/
theorem C8_coverage_density :
    NetworkDataService.calculateCoverageDensity [] = 0 ∧
    (∀ (d : NetworkDataService.NetworkDataState)
        (ds : List NetworkDataService.NetworkDataState),
      NetworkDataService.calculateCoverageDensity (d :: ds) =
        ((((d :: ds).map fun x => x.metrics.deviceCount).sum : ℕ) : ℝ) /
          ((d :: ds).map fun x =>
            Real.pi * x.region.radius * x.region.radius).sum) ∧
    NetworkDataService.calculateCoverageDensity
        [NetworkDataService.aggregateOf 3 10,
          NetworkDataService.aggregateOf 2 20] =
      5 / (Real.pi * 100 + Real.pi * 400) := by
  refine ⟨?_, ?_, ?_⟩
  · simp [NetworkDataService.calculateCoverageDensity]
  · intro d ds
    simp [NetworkDataService.calculateCoverageDensity, Function.comp_def]
  · simp [NetworkDataService.calculateCoverageDensity,
      NetworkDataService.aggregateOf]
    norm_num
    ring_nf

/-- Claim C9: the recommendation rules are independent, not mutually
exclusive — average quality below 0.6 yields infrastructure-investment
suggestions, above 0.8 partnership-opportunity suggestions, above 0.9
cost-optimization suggestions, so a window with average quality above 0.9
triggers both the partnership and the cost categories. -/
theorem C9_recommendation_rules (data : List MockCorda.NetworkData) :
    (MockCorda.avgQuality data < 3/5 →
      (MockCorda.generateRecommendations data).infrastructureInvestment ≠
        []) ∧
    (MockCorda.avgQuality data > 4/5 →
      (MockCorda.generateRecommendations data).partnershipOpportunities ≠
        []) ∧
    (MockCorda.avgQuality data > 9/10 →
      (MockCorda.generateRecommendations data).costOptimization ≠ [] ∧
      (MockCorda.generateRecommendations data).partnershipOpportunities ≠
        []) := by
  refine ⟨?_, ?_, ?_⟩
  · intro h
    simp [MockCorda.generateRecommendations, h]
  · intro h
    simp [MockCorda.generateRecommendations, h]
  · intro h
    have h2 : MockCorda.avgQuality data > 4/5 :=
      lt_trans (by norm_num) h
    exact ⟨by simp [MockCorda.generateRecommendations, h],
      by simp [MockCorda.generateRecommendations, h2]⟩

/-- Witness for C9: a single record with availability 0.95 averages above
0.9 and triggers both the partnership and the cost categories. -/
theorem C9_witness :
    MockCorda.avgQuality [MockCorda.highQualityData] > 9/10 ∧
    ((MockCorda.generateRecommendations
        [MockCorda.highQualityData]).costOptimization ≠ [] ∧
      (MockCorda.generateRecommendations
        [MockCorda.highQualityData]).partnershipOpportunities ≠ []) :=
  ⟨by norm_num [MockCorda.avgQuality, MockCorda.highQualityData],
    (C9_recommendation_rules [MockCorda.highQualityData]).2.2
      (by norm_num [MockCorda.avgQuality, MockCorda.highQualityData])⟩

end DePINfinity
